import Mathlib

/-!
Verification of the die-scan calculator (die-scan-calculator-cli.ts).

The calculator `calc` is a pure closed-form numeric transformation over
JavaScript numbers; we embed it over `ℚ`, with `Math.ceil` as `Int.ceil`.
Each intermediate `const` in the body of `calc` in the source becomes a
top-level definition of the same name, and `calc` assembles them into the
`Results` record exactly as the source does.

The CLI boundary (`main`) is embedded as its two input paths: flag
resolution with yargs defaults (the source has no validation on this
path) and the interactive per-field prompt validators of the enquirer
questions.
-/

namespace DieScan

/-- The `Inputs` interface: all numeric fields are JS numbers, embedded as `ℚ`. -/
structure Inputs where
  widthMm : ℚ
  lengthMm : ℚ
  dpi : ℚ
  sensorPx : ℚ
  pixelPitchUm : ℚ
  wdMm : ℚ
  speedMmS : ℚ
  overlap : ℚ
  cameras : ℚ
  json : Bool
deriving DecidableEq, Repr

/-- The `Results` interface returned by `calc`. -/
structure Results where
  pixelSizeObjMm : ℚ
  eqDpi : ℚ
  pxNeededAcross : ℚ
  pxNeededWithMargin : ℚ
  usablePxPerCam : ℚ
  camsRequired : ℚ
  fovPerCamMm : ℚ
  sensorLengthMm : ℚ
  magnification : ℚ
  focalLengthMm : ℚ
  linePitchMm : ℚ
  linesNeeded : ℚ
  lineRateHz : ℚ
deriving DecidableEq, Repr

/-- `const mmPerInch = 25.4`. -/
def mmPerInch : ℚ := 254 / 10

/-- `const pixelSizeObjMm = mmPerInch / dpi`. -/
def pixelSizeObjMm (i : Inputs) : ℚ := mmPerInch / i.dpi

/-- `const pxNeededAcross = widthMm / pixelSizeObjMm`. -/
def pxNeededAcross (i : Inputs) : ℚ := i.widthMm / pixelSizeObjMm i

/-- `const pxNeededWithMargin = pxNeededAcross * (1 + overlap)`. -/
def pxNeededWithMargin (i : Inputs) : ℚ := pxNeededAcross i * (1 + i.overlap)

/-- `const camsRequired = Math.ceil(pxNeededWithMargin / (sensorPx * (1 - overlap)))`.
`Math.ceil` returns an integer-valued JS number; we record it in `ℤ`. -/
def camsRequired (i : Inputs) : ℤ :=
  ⌈pxNeededWithMargin i / (i.sensorPx * (1 - i.overlap))⌉

/-- `const camsUsed = cameras || camsRequired`: a JS number is falsy exactly
when it is `0`, `-0` or `NaN`, so over `ℚ` the truthiness test is `≠ 0`. -/
def camsUsed (i : Inputs) : ℚ :=
  if i.cameras = 0 then (camsRequired i : ℚ) else i.cameras

/-- `const usablePxPerCam = sensorPx`. -/
def usablePxPerCam (i : Inputs) : ℚ := i.sensorPx

/-- `const fovPerCamMm = (widthMm * (1 + overlap)) / camsUsed`. -/
def fovPerCamMm (i : Inputs) : ℚ := (i.widthMm * (1 + i.overlap)) / camsUsed i

/-- `const sensorLengthMm = sensorPx * (pixelPitchUm / 1000)`. -/
def sensorLengthMm (i : Inputs) : ℚ := i.sensorPx * (i.pixelPitchUm / 1000)

/-- `const magnification = sensorLengthMm / fovPerCamMm`. -/
def magnification (i : Inputs) : ℚ := sensorLengthMm i / fovPerCamMm i

/-- `const focalLengthMm = (magnification * wdMm) / (1 + magnification)`. -/
def focalLengthMm (i : Inputs) : ℚ :=
  (magnification i * i.wdMm) / (1 + magnification i)

/-- `const linePitchMm = pixelSizeObjMm`. -/
def linePitchMm (i : Inputs) : ℚ := pixelSizeObjMm i

/-- `const linesNeeded = lengthMm / linePitchMm`. -/
def linesNeeded (i : Inputs) : ℚ := i.lengthMm / linePitchMm i

/-- `const lineRateHz = speedMmS / linePitchMm`. -/
def lineRateHz (i : Inputs) : ℚ := i.speedMmS / linePitchMm i

/-- `const eqDpi = mmPerInch / pixelSizeObjMm`. -/
def eqDpi (i : Inputs) : ℚ := mmPerInch / pixelSizeObjMm i

/-- The calculator `calc(inputs: Inputs): Results`, returning the record of
all derived quantities, as in the source's return statement. -/
def «calc» (inputs : Inputs) : Results :=
  { pixelSizeObjMm := pixelSizeObjMm inputs
    eqDpi := eqDpi inputs
    pxNeededAcross := pxNeededAcross inputs
    pxNeededWithMargin := pxNeededWithMargin inputs
    usablePxPerCam := usablePxPerCam inputs
    camsRequired := (camsRequired inputs : ℚ)
    fovPerCamMm := fovPerCamMm inputs
    sensorLengthMm := sensorLengthMm inputs
    magnification := magnification inputs
    focalLengthMm := focalLengthMm inputs
    linePitchMm := linePitchMm inputs
    linesNeeded := linesNeeded inputs
    lineRateHz := lineRateHz inputs }

/-- The input constraints of spec section 3: positivity of the physical
quantities, `sensorPx` a positive integer, `0 ≤ overlap < 1`, and
`cameras` a nonnegative integer (`q.den = 1` states that a rational is an
integer). -/
def ValidInputs (i : Inputs) : Prop :=
  0 < i.widthMm ∧ 0 < i.lengthMm ∧ 0 < i.dpi ∧
  0 < i.sensorPx ∧ i.sensorPx.den = 1 ∧
  0 < i.pixelPitchUm ∧ 0 < i.wdMm ∧ 0 < i.speedMmS ∧
  0 ≤ i.overlap ∧ i.overlap < 1 ∧
  0 ≤ i.cameras ∧ i.cameras.den = 1

instance (i : Inputs) : Decidable (ValidInputs i) := by
  unfold ValidInputs; infer_instance

/-- The worked example of the spec with `cameras := 2`
(`overlap = 0.12`, the documented flag defaults otherwise). -/
def exampleInputs : Inputs :=
  { widthMm := 1200
    lengthMm := 1200
    dpi := 250
    sensorPx := 8192
    pixelPitchUm := 7
    wdMm := 600
    speedMmS := 200
    overlap := 12 / 100
    cameras := 2
    json := false }

-- -------------------- The CLI input boundary --------------------

/-- The yargs flag values of `main`: `none` models an absent flag. -/
structure Flags where
  widthMm : Option ℚ
  lengthMm : Option ℚ
  dpi : Option ℚ
  sensorPx : Option ℚ
  pixelPitchUm : Option ℚ
  wdMm : Option ℚ
  speedMmS : Option ℚ
  overlap : Option ℚ
  cameras : Option ℚ
  json : Option Bool

/-- The construction of `inputs` in `main` from the parsed argv: each flag
value, or its documented yargs default when absent.  The source applies no
validation to these values. -/
def resolveFlags (f : Flags) : Inputs :=
  { widthMm := f.widthMm.getD 1200
    lengthMm := f.lengthMm.getD 1200
    dpi := f.dpi.getD 250
    sensorPx := f.sensorPx.getD 8192
    pixelPitchUm := f.pixelPitchUm.getD 7
    wdMm := f.wdMm.getD 600
    speedMmS := f.speedMmS.getD 200
    overlap := f.overlap.getD (12 / 100)
    cameras := f.cameras.getD 0
    json := f.json.getD false }

/-- The flag branch of `main` (flags supplied, so the interactive block is
skipped): `calc` is applied to the resolved flag values directly — the
source has no check between `parseSync` and the `calc(inputs)` call. -/
def mainFlags (f : Flags) : Results := «calc» (resolveFlags f)

/-- The enquirer `validate` for widthMm, lengthMm, dpi, pixelPitchUm, wdMm
and speedMmS: `!isNaN(Number(v)) && Number(v) > 0` (over `ℚ` every value is
numeric, so the `isNaN` guard is vacuous). -/
def positiveNumberOk (v : ℚ) : Bool := decide (0 < v)

/-- The enquirer `validate` for sensorPx: the source checks only
`!isNaN(Number(v)) && Number(v) > 0`, the same test as `positiveNumberOk`,
even though its failure message says "positive integer". -/
def positiveIntegerOk (v : ℚ) : Bool := decide (0 < v)

/-- The enquirer `validate` for overlap: `Number(v) >= 0 && Number(v) < 1`. -/
def fractionOk (v : ℚ) : Bool := decide (0 ≤ v) && decide (v < 1)

/-- The enquirer `validate` for cameras: `Number(v) >= 0`. -/
def nonNegativeOk (v : ℚ) : Bool := decide (0 ≤ v)

/-- An `Inputs` value passes the interactive branch of `main` iff every
per-field enquirer validator accepts the entered value. -/
def promptValidationOk (i : Inputs) : Bool :=
  positiveNumberOk i.widthMm && positiveNumberOk i.lengthMm &&
  positiveNumberOk i.dpi && positiveIntegerOk i.sensorPx &&
  positiveNumberOk i.pixelPitchUm && positiveNumberOk i.wdMm &&
  positiveNumberOk i.speedMmS && fractionOk i.overlap &&
  nonNegativeOk i.cameras

/-- A flag vector carrying only `--overlap 2`, a value outside `[0, 1)`. -/
def badFlags : Flags :=
  { widthMm := none
    lengthMm := none
    dpi := none
    sensorPx := none
    pixelPitchUm := none
    wdMm := none
    speedMmS := none
    overlap := some 2
    cameras := none
    json := none }

/-- The worked example with `overlap := 0` (for the zero-overlap boundary). -/
def zeroOverlapInputs : Inputs := { exampleInputs with overlap := 0 }

/-- The worked example with the width doubled (for monotonicity in width). -/
def wideInputs : Inputs := { exampleInputs with widthMm := 2400 }

-- -------------------- Helper lemmas --------------------

/-- Under the positivity constraints, the ceiling defining `camsRequired` is
taken of a strictly positive quotient, so it is at least one. -/
lemma one_le_camsRequired (i : Inputs) (hw : 0 < i.widthMm) (hd : 0 < i.dpi)
    (hs : 0 < i.sensorPx) (ho0 : 0 ≤ i.overlap) (ho1 : i.overlap < 1) :
    1 ≤ camsRequired i := by
  have hm : (0:ℚ) < mmPerInch := by norm_num [mmPerInch]
  have h1 : 0 < pxNeededWithMargin i := by
    unfold pxNeededWithMargin pxNeededAcross pixelSizeObjMm
    exact mul_pos (div_pos hw (div_pos hm hd)) (by linarith)
  have h2 : 0 < i.sensorPx * (1 - i.overlap) := mul_pos hs (by linarith)
  have hq : 0 < pxNeededWithMargin i / (i.sensorPx * (1 - i.overlap)) :=
    div_pos h1 h2
  have h3 := Int.ceil_pos.mpr hq
  unfold camsRequired
  omega

/-- The camera count used by the downstream formulas is strictly positive:
either the user-supplied `cameras` (nonzero and nonnegative) or the
computed `camsRequired` (at least one). -/
lemma camsUsed_pos (i : Inputs) (hw : 0 < i.widthMm) (hd : 0 < i.dpi)
    (hs : 0 < i.sensorPx) (ho0 : 0 ≤ i.overlap) (ho1 : i.overlap < 1)
    (hc0 : 0 ≤ i.cameras) : 0 < camsUsed i := by
  unfold camsUsed
  split
  · have h1 := one_le_camsRequired i hw hd hs ho0 ho1
    have h2 : (0:ℤ) < camsRequired i := by omega
    exact_mod_cast h2
  · next hne => exact lt_of_le_of_ne hc0 (Ne.symm hne)

-- -------------------- Claims --------------------

/-- C1: on the documented example inputs (width 1200, length 1200, dpi 250,
sensor 8192 px, pitch 7 µm, WD 600, speed 200, overlap 0.12, cameras 2),
`calc` returns pixelSizeObjMm = 0.1016, pxNeededAcross ≈ 11811,
pxNeededWithMargin ≈ 13228, camsRequired = 2, fovPerCamMm = 672,
sensorLengthMm = 57.344, magnification ≈ 0.0853, focalLengthMm ≈ 47.2,
linePitchMm ≈ 0.102, linesNeeded ≈ 11811 and lineRateHz ≈ 1968.50, each
within the rounding tolerance of the stated figure. -/
theorem calc_example_scenario :
    («calc» exampleInputs).pixelSizeObjMm = 1016 / 10000 ∧
    |(«calc» exampleInputs).pxNeededAcross - 11811| < 1 / 2 ∧
    |(«calc» exampleInputs).pxNeededWithMargin - 13228| < 1 / 2 ∧
    («calc» exampleInputs).camsRequired = 2 ∧
    («calc» exampleInputs).fovPerCamMm = 672 ∧
    («calc» exampleInputs).sensorLengthMm = 57344 / 1000 ∧
    |(«calc» exampleInputs).magnification - 853 / 10000| ≤ 5 / 100000 ∧
    |(«calc» exampleInputs).focalLengthMm - 472 / 10| < 5 / 100 ∧
    |(«calc» exampleInputs).linePitchMm - 102 / 1000| ≤ 5 / 10000 ∧
    |(«calc» exampleInputs).linesNeeded - 11811| < 1 / 2 ∧
    |(«calc» exampleInputs).lineRateHz - 196850 / 100| < 5 / 1000 := by
  have h : ⌈(328125 / 178816 : ℚ)⌉ = 2 := by
    rw [Int.ceil_eq_iff]
    norm_num
  norm_num [«calc», pixelSizeObjMm, pxNeededAcross, pxNeededWithMargin,
    camsRequired, camsUsed, usablePxPerCam, fovPerCamMm, sensorLengthMm,
    magnification, focalLengthMm, linePitchMm, linesNeeded, lineRateHz,
    eqDpi, mmPerInch, exampleInputs, abs_lt, abs_le, h]

/-- C2 counterexample: the flag path of `main` performs no validation, so
a concrete invalid flag vector (`--overlap 2`, outside `[0,1)`) resolves to
an `Inputs` value violating the section-3 constraints, `main` still hands
it straight to `calc`, and `calc` even reports the degenerate camera count
`-4` on it.  This refutes the claim that every invalid input is rejected
before the calculator on both input methods. -/
theorem flag_path_reaches_calc_unvalidated :
    ¬ ValidInputs (resolveFlags badFlags) ∧
    mainFlags badFlags = «calc» (resolveFlags badFlags) ∧
    («calc» (resolveFlags badFlags)).camsRequired = -4 := by
  refine ⟨?_, rfl, ?_⟩
  · norm_num [ValidInputs, resolveFlags, badFlags]
  · have h : ⌈(-(140625 / 32512) : ℚ)⌉ = -4 := by
      rw [Int.ceil_eq_iff]
      norm_num
    norm_num [«calc», camsRequired, pxNeededWithMargin, pxNeededAcross,
      pixelSizeObjMm, mmPerInch, resolveFlags, badFlags, h]

/-- C2 amended: only the interactive prompts validate input — a value
accepted by every per-field prompt validator satisfies positivity of the
seven positive fields, `0 ≤ overlap < 1` and `0 ≤ cameras` (integrality of
`sensorPx` is not checked) — while the flag path of `main` invokes `calc`
on the resolved flag values unconditionally, with no validation at all. -/
theorem input_validation_boundary :
    (∀ i : Inputs, promptValidationOk i = true →
      0 < i.widthMm ∧ 0 < i.lengthMm ∧ 0 < i.dpi ∧ 0 < i.sensorPx ∧
      0 < i.pixelPitchUm ∧ 0 < i.wdMm ∧ 0 < i.speedMmS ∧
      0 ≤ i.overlap ∧ i.overlap < 1 ∧ 0 ≤ i.cameras) ∧
    (∀ f : Flags, mainFlags f = «calc» (resolveFlags f)) := by
  constructor
  · intro i h
    simp only [promptValidationOk, positiveNumberOk, positiveIntegerOk,
      fractionOk, nonNegativeOk, Bool.and_eq_true, decide_eq_true_eq] at h
    tauto
  · intro f
    rfl

/-- Witness for C2 amended, at the example inputs and the bad flag vector. -/
theorem input_validation_boundary_witness :
    (0 < exampleInputs.widthMm ∧ 0 < exampleInputs.lengthMm ∧
      0 < exampleInputs.dpi ∧ 0 < exampleInputs.sensorPx ∧
      0 < exampleInputs.pixelPitchUm ∧ 0 < exampleInputs.wdMm ∧
      0 < exampleInputs.speedMmS ∧ 0 ≤ exampleInputs.overlap ∧
      exampleInputs.overlap < 1 ∧ 0 ≤ exampleInputs.cameras) ∧
    mainFlags badFlags = «calc» (resolveFlags badFlags) :=
  ⟨input_validation_boundary.1 exampleInputs
      (by norm_num [promptValidationOk, positiveNumberOk, positiveIntegerOk,
        fractionOk, nonNegativeOk, exampleInputs]),
    input_validation_boundary.2 badFlags⟩

/-- C3: under the section-3 constraints, `camsRequired` is an integer `n`
with `pxNeededWithMargin / (sensorPx * (1 - overlap)) ≤ n` and
`n < pxNeededWithMargin / (sensorPx * (1 - overlap)) + 1`, i.e. exactly
the ceiling of that quotient. -/
theorem camsRequired_is_ceil (i : Inputs) (h : ValidInputs i) :
    ∃ n : ℤ, («calc» i).camsRequired = (n : ℚ) ∧
      («calc» i).pxNeededWithMargin / (i.sensorPx * (1 - i.overlap)) ≤ (n : ℚ) ∧
      (n : ℚ) < («calc» i).pxNeededWithMargin / (i.sensorPx * (1 - i.overlap)) + 1 :=
  ⟨camsRequired i, rfl, Int.le_ceil _, Int.ceil_lt_add_one _⟩

/-- Witness for C3 at the example inputs. -/
theorem camsRequired_is_ceil_witness :
    ∃ n : ℤ, («calc» exampleInputs).camsRequired = (n : ℚ) ∧
      («calc» exampleInputs).pxNeededWithMargin /
          (exampleInputs.sensorPx * (1 - exampleInputs.overlap)) ≤ (n : ℚ) ∧
      (n : ℚ) < («calc» exampleInputs).pxNeededWithMargin /
          (exampleInputs.sensorPx * (1 - exampleInputs.overlap)) + 1 :=
  camsRequired_is_ceil exampleInputs (by norm_num [ValidInputs, exampleInputs])

/-- C4: under the section-3 constraints, the downstream camera count is the
user-supplied `cameras` when it is positive (so `fovPerCamMm` is computed
from `cameras`, not `camsRequired`), is `camsRequired` when `cameras = 0`,
and the `camsRequired` output field is the computed ceiling either way. -/
theorem camsUsed_override (i : Inputs) (h : ValidInputs i) :
    (0 < i.cameras →
      («calc» i).fovPerCamMm = i.widthMm * (1 + i.overlap) / i.cameras) ∧
    (i.cameras = 0 →
      («calc» i).fovPerCamMm =
        i.widthMm * (1 + i.overlap) / («calc» i).camsRequired) ∧
    («calc» i).camsRequired =
      ((⌈(«calc» i).pxNeededWithMargin / (i.sensorPx * (1 - i.overlap))⌉ : ℤ) : ℚ) := by
  refine ⟨?_, ?_, rfl⟩
  · intro hc
    show fovPerCamMm i = _
    unfold fovPerCamMm camsUsed
    rw [if_neg (ne_of_gt hc)]
  · intro hc
    show fovPerCamMm i = _
    unfold fovPerCamMm camsUsed
    rw [if_pos hc]
    rfl

/-- Witness for C4 at the example inputs (where `cameras = 2 > 0`). -/
theorem camsUsed_override_witness :
    (0 < exampleInputs.cameras →
      («calc» exampleInputs).fovPerCamMm =
        exampleInputs.widthMm * (1 + exampleInputs.overlap) / exampleInputs.cameras) ∧
    (exampleInputs.cameras = 0 →
      («calc» exampleInputs).fovPerCamMm =
        exampleInputs.widthMm * (1 + exampleInputs.overlap) /
          («calc» exampleInputs).camsRequired) ∧
    («calc» exampleInputs).camsRequired =
      ((⌈(«calc» exampleInputs).pxNeededWithMargin /
          (exampleInputs.sensorPx * (1 - exampleInputs.overlap))⌉ : ℤ) : ℚ) :=
  camsUsed_override exampleInputs (by norm_num [ValidInputs, exampleInputs])

/-- C5: for `dpi > 0`, the `eqDpi` output is exactly the input `dpi` (the
reverse conversion is an exact inverse over the rationals), hence in
particular within the claimed relative tolerance of `1e-9`. -/
theorem eqDpi_round_trip (i : Inputs) (h : 0 < i.dpi) :
    («calc» i).eqDpi = i.dpi ∧
    |(«calc» i).eqDpi - i.dpi| ≤ (1 / 1000000000) * |i.dpi| := by
  have he : («calc» i).eqDpi = i.dpi := by
    show eqDpi i = i.dpi
    unfold eqDpi pixelSizeObjMm
    rw [div_div_eq_mul_div, mul_comm, mul_div_assoc,
      div_self (by norm_num [mmPerInch] : mmPerInch ≠ 0), mul_one]
  refine ⟨he, ?_⟩
  rw [he, sub_self, abs_zero]
  positivity

/-- Witness for C5 at the example inputs. -/
theorem eqDpi_round_trip_witness :
    («calc» exampleInputs).eqDpi = exampleInputs.dpi ∧
    |(«calc» exampleInputs).eqDpi - exampleInputs.dpi| ≤
      (1 / 1000000000) * |exampleInputs.dpi| :=
  eqDpi_round_trip exampleInputs (by norm_num [exampleInputs])

/-- C6: under the section-3 constraints with `overlap = 0`, the
`camsRequired` output is exactly the ceiling of `pxNeededAcross / sensorPx`
— no margin inflation of the numerator, no shrinking of the denominator. -/
theorem camsRequired_no_margin_at_zero_overlap (i : Inputs)
    (h : ValidInputs i) (h0 : i.overlap = 0) :
    («calc» i).camsRequired = ((⌈(«calc» i).pxNeededAcross / i.sensorPx⌉ : ℤ) : ℚ) := by
  show ((camsRequired i : ℤ) : ℚ) = _
  unfold camsRequired pxNeededWithMargin
  rw [h0]
  norm_num
  rfl

/-- Witness for C6 at the example inputs with overlap zero. -/
theorem camsRequired_no_margin_at_zero_overlap_witness :
    («calc» zeroOverlapInputs).camsRequired =
      ((⌈(«calc» zeroOverlapInputs).pxNeededAcross / zeroOverlapInputs.sensorPx⌉ : ℤ) : ℚ) :=
  camsRequired_no_margin_at_zero_overlap zeroOverlapInputs
    (by norm_num [ValidInputs, zeroOverlapInputs, exampleInputs]) rfl

/-- C7: for two valid inputs agreeing on every field except `widthMm`, with
the second width larger, none of `pxNeededAcross`, `pxNeededWithMargin`
and `camsRequired` decreases. -/
theorem calc_monotone_in_width (i j : Inputs) (hi : ValidInputs i)
    (hj : ValidInputs j) (hlen : i.lengthMm = j.lengthMm)
    (hdpi : i.dpi = j.dpi) (hsen : i.sensorPx = j.sensorPx)
    (hpp : i.pixelPitchUm = j.pixelPitchUm) (hwd : i.wdMm = j.wdMm)
    (hsp : i.speedMmS = j.speedMmS) (hov : i.overlap = j.overlap)
    (hcam : i.cameras = j.cameras) (hwidth : i.widthMm < j.widthMm) :
    («calc» i).pxNeededAcross ≤ («calc» j).pxNeededAcross ∧
    («calc» i).pxNeededWithMargin ≤ («calc» j).pxNeededWithMargin ∧
    («calc» i).camsRequired ≤ («calc» j).camsRequired := by
  obtain ⟨-, -, hdi, hsi, -, -, -, -, ho0, ho1, -, -⟩ := hi
  have hpix : (0:ℚ) < mmPerInch / i.dpi := div_pos (by norm_num [mmPerInch]) hdi
  have h1 : pxNeededAcross i ≤ pxNeededAcross j := by
    unfold pxNeededAcross pixelSizeObjMm
    rw [← hdpi]
    exact (div_le_div_right hpix).mpr hwidth.le
  have h2 : pxNeededWithMargin i ≤ pxNeededWithMargin j := by
    unfold pxNeededWithMargin
    rw [← hov]
    exact mul_le_mul_of_nonneg_right h1 (by linarith)
  have h3 : camsRequired i ≤ camsRequired j := by
    unfold camsRequired
    apply Int.ceil_le_ceil
    rw [← hov, ← hsen]
    exact (div_le_div_right (mul_pos hsi (by linarith))).mpr h2
  refine ⟨h1, h2, ?_⟩
  show ((camsRequired i : ℤ) : ℚ) ≤ ((camsRequired j : ℤ) : ℚ)
  exact_mod_cast h3

/-- Witness for C7: the example inputs against the same inputs with the
width doubled. -/
theorem calc_monotone_in_width_witness :
    («calc» exampleInputs).pxNeededAcross ≤ («calc» wideInputs).pxNeededAcross ∧
    («calc» exampleInputs).pxNeededWithMargin ≤ («calc» wideInputs).pxNeededWithMargin ∧
    («calc» exampleInputs).camsRequired ≤ («calc» wideInputs).camsRequired :=
  calc_monotone_in_width exampleInputs wideInputs
    (by norm_num [ValidInputs, exampleInputs])
    (by norm_num [ValidInputs, wideInputs, exampleInputs])
    rfl rfl rfl rfl rfl rfl rfl rfl (by norm_num [wideInputs, exampleInputs])

/-- C8: `calc` is deterministic — it is a function of the input value
alone, so two calls on equal inputs give equal results. -/
theorem calc_deterministic (i j : Inputs) (h : i = j) : «calc» i = «calc» j := by
  rw [h]

/-- Witness for C8 at the example inputs. -/
theorem calc_deterministic_witness :
    «calc» exampleInputs = «calc» exampleInputs :=
  calc_deterministic exampleInputs exampleInputs rfl

/-- C9: under the section-3 constraints, the `camsRequired` output is at
least one — the tool never reports that zero cameras suffice. -/
theorem camsRequired_at_least_one (i : Inputs) (h : ValidInputs i) :
    1 ≤ («calc» i).camsRequired := by
  obtain ⟨hw, -, hd, hs, -, -, -, -, ho0, ho1, -, -⟩ := h
  have h1 := one_le_camsRequired i hw hd hs ho0 ho1
  show (1:ℚ) ≤ ((camsRequired i : ℤ) : ℚ)
  exact_mod_cast h1

/-- Witness for C9 at the example inputs. -/
theorem camsRequired_at_least_one_witness :
    1 ≤ («calc» exampleInputs).camsRequired :=
  camsRequired_at_least_one exampleInputs (by norm_num [ValidInputs, exampleInputs])

/-- C10: under the section-3 constraints, the magnification is strictly
positive, so the focal-length denominator `1 + magnification` exceeds one,
and the focal length lies strictly between zero and the working distance. -/
theorem focal_length_bounds (i : Inputs) (h : ValidInputs i) :
    0 < («calc» i).magnification ∧ 1 < 1 + («calc» i).magnification ∧
    0 < («calc» i).focalLengthMm ∧ («calc» i).focalLengthMm < i.wdMm := by
  obtain ⟨hw, -, hd, hs, -, hpp, hwd, -, ho0, ho1, hc0, -⟩ := h
  have hcu : 0 < camsUsed i := camsUsed_pos i hw hd hs ho0 ho1 hc0
  have hfov : 0 < fovPerCamMm i := div_pos (mul_pos hw (by linarith)) hcu
  have hsl : 0 < sensorLengthMm i := mul_pos hs (div_pos hpp (by norm_num))
  have hM : 0 < magnification i := div_pos hsl hfov
  have h1M : (1:ℚ) < 1 + magnification i := by linarith
  have hf : 0 < focalLengthMm i := div_pos (mul_pos hM hwd) (by linarith)
  have hflt : focalLengthMm i < i.wdMm := by
    unfold focalLengthMm
    rw [div_lt_iff (by linarith : (0:ℚ) < 1 + magnification i)]
    nlinarith
  exact ⟨hM, h1M, hf, hflt⟩

/-- Witness for C10 at the example inputs. -/
theorem focal_length_bounds_witness :
    0 < («calc» exampleInputs).magnification ∧
    1 < 1 + («calc» exampleInputs).magnification ∧
    0 < («calc» exampleInputs).focalLengthMm ∧
    («calc» exampleInputs).focalLengthMm < exampleInputs.wdMm :=
  focal_length_bounds exampleInputs (by norm_num [ValidInputs, exampleInputs])

end DieScan
